import Mathlib

/-!
Shallow embedding of the Gemini chat-bot command-handler module (bb.py).

The module's effectful behaviour is modelled as pure functions producing an
explicit trace of external-world events (settings-store reads and writes,
media downloads, remote-client calls, chat-protocol messages, file removals)
together with the final settings-store state.  Points where the Python code
can raise are driven by an explicit environment record carrying the outcome
of every fallible external call.
-/

/-! ## Python string primitives -/

/-- The ASCII whitespace characters Python str.strip and str.split treat
as separators. -/
def isWsChar (c : Char) : Bool := c == ' ' || c == '\t' || c == '\n' || c == '\r'

/-- Python str.strip (ASCII whitespace). -/
def pyStrip (s : String) : String :=
  String.mk (((s.toList.dropWhile isWsChar).reverse.dropWhile isWsChar).reverse)

/-- Split a character list at every occurrence of sep, keeping empty pieces,
with the current piece accumulated in reverse. -/
def splitChars (sep : Char) : List Char → List Char → List (List Char)
  | [], acc => [acc.reverse]
  | c :: cs, acc =>
    if c == sep then acc.reverse :: splitChars sep cs []
    else splitChars sep cs (c :: acc)

/-- Python str.split(sep) for a one-character separator. -/
def pySplit (s : String) (sep : Char) : List String :=
  (splitChars sep s.toList []).map String.mk

/-- Python truthiness of an optional string: None and the empty string are falsy. -/
def pyTruthy : Option String → Bool
  | none => false
  | some s => !(s == "")

/-- Python one-character-substring containment test. -/
def pyContains (s : String) (sub : Char) : Bool := s.toList.contains sub

/-- Rendering of an optional string inside a Python f-string:
None prints as the four characters None. -/
def renderOptStr : Option String → String
  | none => "None"
  | some s => s

/-- The final path component, as pathlib's Path.name (posix form). -/
def pathName (s : String) : String := (pySplit s '/').getLastD s

/-- Index of the last dot in a list of characters, if any. -/
def lastDotIdx (cs : List Char) : Option Nat :=
  ((List.range cs.length).filter (fun i => cs.getD i ' ' == '.')).getLast?

/-- pathlib Path(s).suffix: the last extension of the final component,
dot included; empty when the name has no proper extension. -/
def pySuffix (s : String) : String :=
  let name := pathName s
  let cs := name.toList
  match lastDotIdx cs with
  | none => ""
  | some i => if 0 < i ∧ i < cs.length - 1 then String.mk (cs.drop i) else ""

/-- Python str.split(maxsplit=1): leading whitespace dropped, first token,
then the rest of the string with its own leading whitespace dropped. -/
def splitMax1 (s : String) : List String :=
  let cs := s.toList.dropWhile isWsChar
  let tk := cs.takeWhile (fun c => !(isWsChar c))
  let rest := (cs.dropWhile (fun c => !(isWsChar c))).dropWhile isWsChar
  if tk.isEmpty then []
  else if rest.isEmpty then [String.mk tk]
  else [String.mk tk, String.mk rest]

/-! ## Settings store -/

/-- The key-value settings store: namespace and key to stored value. -/
abbrev Db := String → String → Option String

/-- db.set: functional update of the store. -/
def dbSetF (d : Db) (ns k v : String) : Db :=
  fun n k2 => if n == ns && k2 == k then some v else d n k2

/-- db.delete: functional removal from the store. -/
def dbDeleteF (d : Db) (ns k : String) : Db :=
  fun n k2 => if n == ns && k2 == k then none else d n k2

/-! ## Events and exceptions -/

/-- Exceptions the module's code paths can raise: Python ValueError with its
message, and any other exception identified by a tag. -/
inductive Exn where
  | valueError (msg : String)
  | other (tag : String)
  deriving DecidableEq, Repr

/-- One observable external action of the module. -/
inductive Event where
  | dbGet (ns key : String) (result : Option String)
  | dbSet (ns key value : String)
  | dbDelete (ns key : String)
  | download (dest : String) (ok : Bool)
  | clientInit (ok : Bool)
  | startChat (metadata : Option String) (model : String) (ok : Bool)
  | sendMessage (prompt : String) (files : Option (List String)) (ok : Bool)
  | editOrig (text : String)
  | replyOrig (text : String)
  | editWait (text : String)
  | sendPhoto (photo : String) (ok : Bool)
  | warnImage
  | safeRemove (path : String) (ok : Bool)
  deriving DecidableEq, Repr

/-- message.edit when the sender is self, message.reply otherwise. -/
def editOrReply (isSelf : Bool) (t : String) : Event :=
  if isSelf then Event.editOrig t else Event.replyOrig t

/-! ## Module constants -/

def TEMP_IMAGE_DIR : String := "./temp_gemini_images"
def TEMP_FILE_DIR : String := "./temp_gemini_files"
def DEFAULT_MODEL : String := "gemini-2.5-flash"

def noCookieMsg : String := "No Gemini cookies configured. Use set_gemini command."
def badFormatMsg : String := "Invalid cookie format. Use: __Secure-1PSID|__Secure-1PSIDTS"
def emptyPartsMsg : String := "Invalid cookie values. Both parts must be non-empty."
def genericErrMsg : String :=
  "❌ Gemini encountered an error. Please try again or re-set cookies with set_gemini."

/-! ## get_client -/

/-- The constructed Gemini client, carrying the parsed credential pair. -/
structure Client where
  psid : String
  psidts : String
  deriving DecidableEq, Repr

/-- Environment for get_client: initial store, whether client.init raises,
and the outcome of reading the refreshed __Secure-1PSIDTS from the client
cookie jar (error = that read raised). -/
structure GCEnv where
  db0 : Db
  initOk : Bool
  cookiesGet : Except Unit (Option String)

/-- get_client (bb.py lines 33-66): read and validate the stored cookie,
initialise the client, and persist a refreshed __Secure-1PSIDTS when the
service rotated it. -/
def getClient (env : GCEnv) : List Event × Db × Except Exn Client :=
  if pyTruthy (env.db0 "custom.gemini" "cookie") then
    match pySplit (pyStrip ((env.db0 "custom.gemini" "cookie").getD "")) '|' with
    | [psid, psidts] =>
      if psid = "" ∨ psidts = "" then
        ([Event.dbGet "custom.gemini" "cookie" (env.db0 "custom.gemini" "cookie")],
         env.db0, Except.error (Exn.valueError emptyPartsMsg))
      else if env.initOk then
        match env.cookiesGet with
        | Except.ok (some np) =>
          if np ≠ "" ∧ np ≠ psidts then
            ([Event.dbGet "custom.gemini" "cookie" (env.db0 "custom.gemini" "cookie"),
              Event.clientInit true,
              Event.dbSet "custom.gemini" "cookie" (psid ++ "|" ++ np)],
             dbSetF env.db0 "custom.gemini" "cookie" (psid ++ "|" ++ np),
             Except.ok ⟨psid, psidts⟩)
          else
            ([Event.dbGet "custom.gemini" "cookie" (env.db0 "custom.gemini" "cookie"),
              Event.clientInit true], env.db0, Except.ok ⟨psid, psidts⟩)
        | _ =>
          ([Event.dbGet "custom.gemini" "cookie" (env.db0 "custom.gemini" "cookie"),
            Event.clientInit true], env.db0, Except.ok ⟨psid, psidts⟩)
      else
        ([Event.dbGet "custom.gemini" "cookie" (env.db0 "custom.gemini" "cookie"),
          Event.clientInit false], env.db0, Except.error (Exn.other "client_init"))
    | _ =>
      ([Event.dbGet "custom.gemini" "cookie" (env.db0 "custom.gemini" "cookie")],
       env.db0, Except.error (Exn.valueError badFormatMsg))
  else
    ([Event.dbGet "custom.gemini" "cookie" (env.db0 "custom.gemini" "cookie")],
     env.db0, Except.error (Exn.valueError noCookieMsg))

/-! ## _download_replied_media -/

/-- A media object carried by a message (document, audio, video, voice,
video_note); only the attributes the code reads. -/
structure MediaObj where
  file_name : Option String
  file_unique_id : String
  deriving DecidableEq, Repr

/-- A photo attached to a message. -/
structure PhotoObj where
  file_unique_id : String
  deriving DecidableEq, Repr

/-- The replied-to message: each of the six media attributes may be absent. -/
structure RepliedMsg where
  document : Option MediaObj
  audio : Option MediaObj
  video : Option MediaObj
  voice : Option MediaObj
  video_note : Option MediaObj
  photo : Option PhotoObj
  deriving DecidableEq, Repr

/-- Attribute iteration order of the for-loop in _download_replied_media. -/
def attrOrder : List String := ["document", "audio", "video", "voice", "video_note"]

/-- getattr(replied, attr, None) for the five looped attributes. -/
def getAttr (r : RepliedMsg) : String → Option MediaObj
  | "document" => r.document
  | "audio" => r.audio
  | "video" => r.video
  | "voice" => r.voice
  | "video_note" => r.video_note
  | _ => none

/-- The first attribute in loop order carrying a media object, with it. -/
def firstMedia (r : RepliedMsg) : Option (String × MediaObj) :=
  attrOrder.findSome? (fun a => (getAttr r a).map (fun m => (a, m)))

/-- Whether the replied-to message carries any recognized media. -/
def hasMedia (r : RepliedMsg) : Bool := (firstMedia r).isSome || r.photo.isSome

/-- The ext_map literal of _download_replied_media, as a partial lookup:
the outer Option is dict membership, the inner Option the stored value
(None for document). -/
def extMapLookup : String → Option (Option String)
  | "voice" => some (some ".ogg")
  | "video_note" => some (some ".mp4")
  | "video" => some (some ".mp4")
  | "audio" => some (some ".mp3")
  | "document" => some none
  | _ => none

/-- ext_map.get(attr, ".bin"). -/
def extMapGet (attr : String) : Option String := (extMapLookup attr).getD (some ".bin")

/-- The extension computation of _download_replied_media (lines 77-89):
the file_name suffix when present and non-empty, else the ext_map entry. -/
def computeExt (attr : String) (fn : Option String) : Option String :=
  let ext1 : Option String :=
    if pyTruthy fn then
      let sfx := pySuffix (fn.getD "")
      if sfx = "" then none else some sfx
    else none
  match ext1 with
  | some e => some e
  | none => extMapGet attr

/-- Destination path for a looped media attribute (line 90); a None
extension renders into the literal characters None. -/
def destFor (attr : String) (m : MediaObj) : String :=
  TEMP_FILE_DIR ++ "/" ++ m.file_unique_id ++ renderOptStr (computeExt attr m.file_name)

/-- _download_replied_media (lines 68-100): at most one download — the first
truthy looped attribute wins and breaks, the photo only when the loop
downloaded nothing.  ok says whether replied.download succeeds. -/
def downloadRepliedMedia (replied : Option RepliedMsg) (ok : Bool) :
    List Event × Except Exn (List String) :=
  match replied with
  | none => ([], Except.ok [])
  | some r =>
    match firstMedia r with
    | some (attr, m) =>
      let dest := destFor attr m
      if ok then ([Event.download dest true], Except.ok [dest])
      else ([Event.download dest false], Except.error (Exn.other "download"))
    | none =>
      match r.photo with
      | some ph =>
        let dest := TEMP_FILE_DIR ++ "/" ++ ph.file_unique_id ++ ".jpg"
        if ok then ([Event.download dest true], Except.ok [dest])
        else ([Event.download dest false], Except.error (Exn.other "download"))
      | none => ([], Except.ok [])

/-! ## Response images -/

/-- Response image kind: the two isinstance branches of the image loop,
plus any other type, which matches neither. -/
inductive ImgKind where
  | generated
  | web
  | otherKind
  deriving DecidableEq, Repr

/-- One image of the response, with the outcome of each fallible external
call on it: whether image.save raises, whether the saved file exists
afterwards, and whether app.send_photo raises. -/
structure ImgSpec where
  kind : ImgKind
  url : Option String
  saveOk : Bool
  savedExists : Bool
  sendOk : Bool
  deriving DecidableEq, Repr

/-- The path _save_generated_image writes image index i to. -/
def genPath (i : Nat) : String := TEMP_IMAGE_DIR ++ "/gemini_gen_" ++ toString i ++ ".png"

/-- _save_generated_image (lines 102-111): None when image.save raises or
the file does not exist afterwards, the path otherwise. -/
def saveGeneratedImage (img : ImgSpec) (i : Nat) : Option String :=
  if img.saveOk && img.savedExists then some (genPath i) else none

/-- Sending an image by url: nothing when the url is absent or empty;
send_photo, with the per-image catch turning a raise into the warning. -/
def sendByUrl (url : Option String) (sendOk : Bool) : List Event :=
  match url with
  | some u =>
    if u ≠ "" then
      if sendOk then [Event.sendPhoto u true]
      else [Event.sendPhoto u false, Event.warnImage]
    else []
  | none => []

/-- One iteration of the image loop (lines 173-187): events produced and
the path appended to generated_image_paths (appended only after a
successful send_photo of the saved file). -/
def processImage (i : Nat) (img : ImgSpec) : List Event × Option String :=
  match img.kind with
  | ImgKind.generated =>
    match saveGeneratedImage img i with
    | some p =>
      if img.sendOk then ([Event.sendPhoto p true], some p)
      else ([Event.sendPhoto p false, Event.warnImage], none)
    | none => (sendByUrl img.url img.sendOk, none)
  | ImgKind.web => (sendByUrl img.url img.sendOk, none)
  | ImgKind.otherKind => ([], none)

/-- The whole enumerate loop over response.images starting at index i. -/
def processImages : List ImgSpec → Nat → List Event × List String
  | [], _ => ([], [])
  | img :: rest, i =>
    ((processImage i img).1 ++ (processImages rest (i + 1)).1,
     (processImage i img).2.toList ++ (processImages rest (i + 1)).2)

/-! ## set_gemini -/

def setGeminiUsage : String := "<b>Usage:</b> <code>set_gemini __Secure-1PSID|__Secure-1PSIDTS</code>"
def invalidFormatMsg : String := "❌ Invalid format. Use: __Secure-1PSID|__Secure-1PSIDTS"
def setOkMsg : String := "✅ Gemini cookies set successfully."

/-- Environment for set_gemini: sender kind, raw message text, the parsed
command words, and the initial store. -/
structure SetEnv where
  isSelf : Bool
  text : String
  command : List String
  db0 : Db

/-- set_gemini (lines 113-125): validate the pasted cookie text and store it
under custom.gemini/cookie. -/
def setGemini (env : SetEnv) : List Event × Db :=
  if env.command.length < 2 then ([editOrReply env.isSelf setGeminiUsage], env.db0)
  else if !(pyContains (pyStrip ((splitMax1 env.text).getD 1 "")) '|')
      || (pySplit (pyStrip ((splitMax1 env.text).getD 1 "")) '|').length ≠ 2 then
    ([editOrReply env.isSelf invalidFormatMsg], env.db0)
  else
    ([Event.dbSet "custom.gemini" "cookie" (pyStrip ((splitMax1 env.text).getD 1 "")),
      editOrReply env.isSelf setOkMsg],
     dbSetF env.db0 "custom.gemini" "cookie" (pyStrip ((splitMax1 env.text).getD 1 "")))

/-! ## gemini_query -/

def geminiUsage : String := "<b>Usage:</b> <code>gemini [prompt]</code>"
def emptyPromptMsg : String := "❌ Prompt cannot be empty."
def thinkingMsg : String := "<code>Thinking...</code>"

/-- Environment for gemini_query: message data, the initial store, and the
outcome of every fallible external call the handler makes. -/
structure QEnv where
  isSelf : Bool
  command : List String
  replied : Option RepliedMsg
  db0 : Db
  downloadOk : Bool
  initOk : Bool
  cookiesGet : Except Unit (Option String)
  startChatMetaOk : Bool
  startChatFreshOk : Bool
  sendOk : Bool
  responseText : Option String
  chatMetaAfter : Option String
  images : List ImgSpec
  rmOk : String → Bool

/-- The prompt: the command words after the first, joined and stripped. -/
def promptOf (env : QEnv) : String :=
  pyStrip (String.intercalate " " (env.command.drop 1))

/-- response.text or the no-answer fallback, then the relayed text. -/
def questionAnswer (prompt : String) (rt : Option String) : String :=
  "**Question:**\n" ++ prompt ++ "\n\n**Answer:**\n" ++
    (if pyTruthy rt then rt.getD "" else "❌ No answer found.")

/-- Result of the try-block of gemini_query: events, final store, the
downloaded files and tracked generated-image paths as they stand when the
finally-block runs, and the exception that escaped the block, if any. -/
structure TryOut where
  evs : List Event
  db : Db
  dls : List String
  gens : List String
  exn : Option Exn

/-- Lines 151-159: start_chat from stored metadata when present; on a raise,
start a fresh default-model chat and then delete the stale metadata. -/
def chatPhase (env : QEnv) (meta : Option String) (db1 : Db) :
    List Event × Db × Option Exn :=
  if pyTruthy meta then
    if env.startChatMetaOk then ([Event.startChat meta DEFAULT_MODEL true], db1, none)
    else if env.startChatFreshOk then
      ([Event.startChat meta DEFAULT_MODEL false, Event.startChat none DEFAULT_MODEL true,
        Event.dbDelete "custom.gemini" "chat_metadata"],
       dbDeleteF db1 "custom.gemini" "chat_metadata", none)
    else
      ([Event.startChat meta DEFAULT_MODEL false, Event.startChat none DEFAULT_MODEL false],
       db1, some (Exn.other "start_chat"))
  else if env.startChatFreshOk then ([Event.startChat none DEFAULT_MODEL true], db1, none)
  else ([Event.startChat none DEFAULT_MODEL false], db1, some (Exn.other "start_chat"))

/-- Lines 164-165: persist chat.metadata when truthy. -/
def metaSave (cm : Option String) (db : Db) : List Event × Db :=
  if pyTruthy cm then
    ([Event.dbSet "custom.gemini" "chat_metadata" (cm.getD "")],
     dbSetF db "custom.gemini" "chat_metadata" (cm.getD ""))
  else ([], db)

/-- The tail of the try-block after a chat handle exists (lines 161-187):
send the message, persist metadata, relay the answer, relay the images. -/
def afterChat (env : QEnv) (prompt : String) (dls : List String)
    (evs : List Event) (db2 : Db) : TryOut :=
  if env.sendOk then
    ⟨evs ++ [Event.sendMessage prompt (if dls.isEmpty then none else some dls) true]
        ++ (metaSave env.chatMetaAfter db2).1
        ++ [Event.editWait (questionAnswer prompt env.responseText)]
        ++ (processImages env.images 0).1,
     (metaSave env.chatMetaAfter db2).2, dls, (processImages env.images 0).2, none⟩
  else
    ⟨evs ++ [Event.sendMessage prompt (if dls.isEmpty then none else some dls) false],
     db2, dls, [], some (Exn.other "send_message")⟩

/-- The try-block after get_client succeeded (lines 149-187). -/
def afterClient (env : QEnv) (prompt : String) (dls : List String)
    (evs : List Event) (db1 : Db) : TryOut :=
  match chatPhase env (db1 "custom.gemini" "chat_metadata") db1 with
  | (cEvs, db2, some e) =>
    ⟨evs ++ [Event.dbGet "custom.gemini" "chat_metadata" (db1 "custom.gemini" "chat_metadata")]
         ++ cEvs, db2, dls, [], some e⟩
  | (cEvs, db2, none) =>
    afterChat env prompt dls
      (evs ++ [Event.dbGet "custom.gemini" "chat_metadata" (db1 "custom.gemini" "chat_metadata")]
           ++ cEvs) db2

/-- The whole try-block of gemini_query (lines 144-187). -/
def tryBody (env : QEnv) (prompt : String) : TryOut :=
  match downloadRepliedMedia env.replied env.downloadOk with
  | (dEvs, Except.error e) => ⟨dEvs, env.db0, [], [], some e⟩
  | (dEvs, Except.ok dls) =>
    match getClient ⟨env.db0, env.initOk, env.cookiesGet⟩ with
    | (gEvs, db1, Except.error e) => ⟨dEvs ++ gEvs, db1, dls, [], some e⟩
    | (gEvs, db1, Except.ok _) => afterClient env prompt dls (dEvs ++ gEvs) db1

/-- The message the except-clauses show (lines 189-192): the ValueError
text for a ValueError, the one generic message for everything else. -/
def catchMsg : Exn → String
  | Exn.valueError m => "❌ " ++ m
  | Exn.other _ => genericErrMsg

/-- The events of the two except-clauses (lines 189-192). -/
def catchEvents : Option Exn → List Event
  | none => []
  | some e => [Event.editWait (catchMsg e)]

/-- The events of the finally-block (lines 193-197): one _safe_remove call
per tracked downloaded file, then one per tracked generated image;
_safe_remove swallows its own failures, so every file gets its call. -/
def rmEvents (t : TryOut) (rm : String → Bool) : List Event :=
  t.dls.map (fun p => Event.safeRemove p (rm p))
    ++ t.gens.map (fun p => Event.safeRemove p (rm p))

/-- gemini_query (lines 127-197): usage checks, the try-block, the two
except-clauses, and the finally-block removing every tracked file through
_safe_remove (which swallows its own failures). -/
def geminiQuery (env : QEnv) : List Event × Db :=
  if env.command.length < 2 then ([editOrReply env.isSelf geminiUsage], env.db0)
  else if promptOf env = "" then ([editOrReply env.isSelf emptyPromptMsg], env.db0)
  else
    (editOrReply env.isSelf thinkingMsg ::
       (tryBody env (promptOf env)).evs
       ++ catchEvents (tryBody env (promptOf env)).exn
       ++ rmEvents (tryBody env (promptOf env)) env.rmOk,
     (tryBody env (promptOf env)).db)

deriving instance DecidableEq for Except

/-! ## Derived predicates and concrete environments -/

/-- The empty settings store. -/
def dbEmpty : Db := fun _ _ => none

/-- A store holding only the credential cookie. -/
def dbCk (v : String) : Db :=
  fun ns k => if ns == "custom.gemini" && k == "cookie" then some v else none

/-- A store holding the credential cookie and a stored conversation handle. -/
def dbCkMeta (v m : String) : Db :=
  fun ns k =>
    if ns == "custom.gemini" && k == "cookie" then some v
    else if ns == "custom.gemini" && k == "chat_metadata" then some m
    else none

/-- The event is not a settings-store write or delete outside namespace
custom.gemini and keys cookie / chat_metadata (non-store events pass). -/
def dbWriteOkB : Event → Bool
  | Event.dbSet ns k _ => ns == "custom.gemini" && (k == "cookie" || k == "chat_metadata")
  | Event.dbDelete ns k => ns == "custom.gemini" && (k == "cookie" || k == "chat_metadata")
  | _ => true

/-- The event is a start_chat call passing stored metadata. -/
def isStaleChatStart : Event → Bool
  | Event.startChat (some _) _ _ => true
  | _ => false

/-- The event is a media download. -/
def isDownloadEv : Event → Bool
  | Event.download _ _ => true
  | _ => false

/-- The event is a settings-store read. -/
def isDbReadEv : Event → Bool
  | Event.dbGet _ _ _ => true
  | _ => false

/-- The event relays an image back: a photo send or the image warning. -/
def isRelayEv : Event → Bool
  | Event.sendPhoto _ _ => true
  | Event.warnImage => true
  | _ => false

/-- The event is a _safe_remove call on path p. -/
def isRemoveOf (p : String) : Event → Bool
  | Event.safeRemove q _ => q == p
  | _ => false

/-- A replied-to message holding only a document named a.pdf. -/
def docReplied : RepliedMsg :=
  { document := some ⟨some "a.pdf", "UID"⟩, audio := none, video := none,
    voice := none, video_note := none, photo := none }

/-- A replied-to message carrying several media attributes at once. -/
def repliedMulti : RepliedMsg :=
  { document := some ⟨some "a.pdf", "D1"⟩, audio := some ⟨none, "A1"⟩, video := none,
    voice := none, video_note := none, photo := some ⟨"P1"⟩ }

/-- A base gemini-query run: valid cookie, no replied media, every external
call succeeds, no response images. -/
def envBase : QEnv :=
  { isSelf := true
    command := ["gemini", "hi"]
    replied := none
    db0 := dbCk "A|B"
    downloadOk := true
    initOk := true
    cookiesGet := Except.ok none
    startChatMetaOk := true
    startChatFreshOk := true
    sendOk := true
    responseText := some "ok"
    chatMetaAfter := none
    images := []
    rmOk := fun _ => true }

/-- The base run with a replied-to document to download. -/
def envOrder : QEnv := { envBase with replied := some docReplied }

/-- The base run with no cookie configured, so get_client raises ValueError. -/
def envNoCookie : QEnv := { envBase with db0 := dbEmpty }

/-- The base run with one generated image that saves fine but whose
send_photo raises. -/
def envLeak : QEnv :=
  { envBase with images := [⟨ImgKind.generated, some "http://img", true, true, false⟩] }

/-- The base run with stored conversation metadata from which start_chat
raises; everything else succeeds. -/
def envStale : QEnv :=
  { envBase with db0 := dbCkMeta "A|B" "OLDMETA", startChatMetaOk := false }

/-- The base run with one generated image that has no url and whose save
raises. -/
def envNoUrl : QEnv :=
  { envBase with images := [⟨ImgKind.generated, none, false, false, true⟩] }

/-- A get_client environment whose service rotated __Secure-1PSIDTS. -/
def gcRotate : GCEnv := ⟨dbCk "A|B", true, Except.ok (some "C")⟩

/-- set_gemini invoked on the text a| (one part empty). -/
def envSetWeak : SetEnv := ⟨true, "set_gemini a|", ["set_gemini", "a|"], dbEmpty⟩

/-! ## Theorems -/

/-- C3: for every incoming message, _download_replied_media downloads zero
or one media item: the empty list exactly when there is no replied-to
message or no recognized media, and never more than one file even when the
replied-to message carries several media attributes. -/
theorem download_replied_media_zero_or_one (replied : Option RepliedMsg) (ok : Bool)
    (fs : List String) (h : (downloadRepliedMedia replied ok).2 = Except.ok fs) :
    fs.length ≤ 1 ∧ (fs = [] ↔ ∀ r, replied = some r → hasMedia r = false) := by
  rcases replied with _ | r
  · simp [downloadRepliedMedia] at h
    simp [h]
  · rcases hfm : firstMedia r with _ | ⟨attr, m⟩
    · rcases hph : r.photo with _ | ph
      · simp [downloadRepliedMedia, hfm, hph] at h
        simp [h, hasMedia, hfm, hph]
      · rcases ok with _ | _
        · simp [downloadRepliedMedia, hfm, hph] at h
        · simp [downloadRepliedMedia, hfm, hph] at h
          simp [← h, hasMedia, hfm, hph]
    · rcases ok with _ | _
      · simp [downloadRepliedMedia, hfm] at h
      · simp [downloadRepliedMedia, hfm] at h
        simp [← h, hasMedia, hfm]

/-- Witness for C3 at a replied-to message carrying a document, an audio and
a photo at once: the result is the single document download. -/
theorem download_replied_media_zero_or_one_witness :
    ["./temp_gemini_files/D1.pdf"].length ≤ 1 ∧
      (["./temp_gemini_files/D1.pdf"] = ([] : List String) ↔
        ∀ r, some repliedMulti = some r → hasMedia r = false) :=
  download_replied_media_zero_or_one (some repliedMulti) true _ (by decide)

/-- C10: in _download_replied_media, a replied-to document whose file_name
is absent, empty or without suffix gets extension None, so the destination
filename is the file_unique_id followed by the four characters None; and
the .bin fallback of ext_map.get is unreachable for all five handled media
types, since each is a key of ext_map. -/
theorem document_missing_suffix_yields_none (m : MediaObj)
    (h : m.file_name = none ∨ ∃ s, m.file_name = some s ∧ pySuffix s = "") :
    computeExt "document" m.file_name = none ∧
    destFor "document" m = TEMP_FILE_DIR ++ "/" ++ m.file_unique_id ++ "None" ∧
    ∀ attr ∈ attrOrder, (extMapLookup attr).isSome = true := by
  have hext : computeExt "document" m.file_name = none := by
    rcases h with h | ⟨s, hs, hsfx⟩
    · simp [computeExt, h, pyTruthy, extMapGet, extMapLookup]
    · rcases eq_or_ne s "" with rfl | hne
      · simp [computeExt, hs, pyTruthy, extMapGet, extMapLookup]
      · simp [computeExt, hs, pyTruthy, hne, hsfx, extMapGet, extMapLookup]
  refine ⟨hext, ?_, by decide⟩
  simp [destFor, hext, renderOptStr]

/-- Witness for C10 at a document with no file_name at all. -/
theorem document_missing_suffix_yields_none_witness :
    computeExt "document" (none : Option String) = none ∧
    destFor "document" ⟨none, "X"⟩ = TEMP_FILE_DIR ++ "/" ++ "X" ++ "None" ∧
    ∀ attr ∈ attrOrder, (extMapLookup attr).isSome = true :=
  document_missing_suffix_yields_none ⟨none, "X"⟩ (Or.inl rfl)

/-- C8: set_gemini only checks that the pasted text splits into exactly two
parts around the bar, so it accepts and stores the cookie a| with a success
message, yet get_client raises ValueError on that stored value because its
second part is empty: set_gemini validation is strictly weaker than
get_client validation. -/
theorem set_gemini_weaker_than_get_client :
    (setGemini envSetWeak).1 =
      [Event.dbSet "custom.gemini" "cookie" "a|", Event.editOrig setOkMsg] ∧
    (setGemini envSetWeak).2 "custom.gemini" "cookie" = some "a|" ∧
    (getClient ⟨(setGemini envSetWeak).2, true, Except.ok none⟩).2.2 =
      Except.error (Exn.valueError emptyPartsMsg) := by
  refine ⟨by decide, by decide, by decide⟩

/-- Every event of _download_replied_media is a download. -/
theorem dm_evs_shape {r : Option RepliedMsg} {ok : Bool} {e : Event}
    (h : e ∈ (downloadRepliedMedia r ok).1) : ∃ d b, e = Event.download d b := by
  rcases r with _ | r
  · simp [downloadRepliedMedia] at h
  · rcases hfm : firstMedia r with _ | ⟨attr, m⟩
    · rcases hph : r.photo with _ | ph
      · simp [downloadRepliedMedia, hfm, hph] at h
      · rcases ok with _ | _ <;>
          (simp [downloadRepliedMedia, hfm, hph] at h; exact ⟨_, _, h⟩)
    · rcases ok with _ | _ <;>
        (simp [downloadRepliedMedia, hfm] at h; exact ⟨_, _, h⟩)

/-- Every event of get_client is the cookie read, the client init, or a
store write of the cookie key. -/
theorem gc_evs_shape {genv : GCEnv} {e : Event} (h : e ∈ (getClient genv).1) :
    (∃ res, e = Event.dbGet "custom.gemini" "cookie" res) ∨
    (∃ b, e = Event.clientInit b) ∨
    (∃ v, e = Event.dbSet "custom.gemini" "cookie" v) := by
  unfold getClient at h
  repeat' split at h
  all_goals aesop

/-- The only store write get_client can make stores the reassembled pair:
the original psid, a bar, and the refreshed psidts. -/
theorem gc_dbSet_shape {genv : GCEnv} {v : String}
    (h : Event.dbSet "custom.gemini" "cookie" v ∈ (getClient genv).1) :
    ∃ c psid psidts np,
      genv.db0 "custom.gemini" "cookie" = some c ∧
      pySplit (pyStrip c) '|' = [psid, psidts] ∧
      genv.cookiesGet = Except.ok (some np) ∧ np ≠ "" ∧ np ≠ psidts ∧
      v = psid ++ "|" ++ np := by
  rcases hdb : genv.db0 "custom.gemini" "cookie" with _ | c
  · unfold getClient at h
    rw [hdb] at h
    simp [pyTruthy] at h
  · unfold getClient at h
    rw [hdb] at h
    repeat' split at h
    all_goals simp_all [pyTruthy]
    all_goals refine ⟨_, _, ⟨rfl, rfl⟩, ?_, rfl⟩
    all_goals tauto

/-- Every event of the chat phase is a start_chat call or the delete of
the stale chat_metadata key. -/
theorem chat_evs_shape {env : QEnv} {meta : Option String} {db1 : Db} {e : Event}
    (h : e ∈ (chatPhase env meta db1).1) :
    (∃ md mdl b, e = Event.startChat md mdl b) ∨
    e = Event.dbDelete "custom.gemini" "chat_metadata" := by
  unfold chatPhase at h
  repeat' split at h
  all_goals aesop

/-- Every event of the metadata save is a store write of chat_metadata. -/
theorem metaSave_evs_shape {cm : Option String} {db : Db} {e : Event}
    (h : e ∈ (metaSave cm db).1) :
    ∃ v, e = Event.dbSet "custom.gemini" "chat_metadata" v := by
  unfold metaSave at h
  split at h <;> simp_all

/-- Every event of a url send is a photo send or the image warning. -/
theorem sendByUrl_shape {u : Option String} {ok : Bool} {e : Event}
    (h : e ∈ sendByUrl u ok) :
    (∃ s b, e = Event.sendPhoto s b) ∨ e = Event.warnImage := by
  unfold sendByUrl at h
  repeat' split at h
  all_goals aesop

/-- Every event of one image iteration is a photo send or the warning. -/
theorem processImage_shape {i : Nat} {img : ImgSpec} {e : Event}
    (h : e ∈ (processImage i img).1) :
    (∃ s b, e = Event.sendPhoto s b) ∨ e = Event.warnImage := by
  unfold processImage at h
  repeat' split at h
  all_goals first
    | exact sendByUrl_shape h
    | aesop

/-- Every event of the image loop is a photo send or the warning. -/
theorem processImages_shape {imgs : List ImgSpec} {i : Nat} {e : Event}
    (h : e ∈ (processImages imgs i).1) :
    (∃ s b, e = Event.sendPhoto s b) ∨ e = Event.warnImage := by
  induction imgs generalizing i with
  | nil => simp [processImages] at h
  | cons img rest ih =>
    simp only [processImages, List.mem_append] at h
    rcases h with h | h
    · exact processImage_shape h
    · exact ih h

/-- The post-chat tail only adds store-confined events to evs. -/
theorem afterChat_dbOk {env : QEnv} {p : String} {dls : List String}
    {evs : List Event} {db2 : Db}
    (hevs : ∀ e ∈ evs, dbWriteOkB e = true) :
    ∀ e ∈ (afterChat env p dls evs db2).evs, dbWriteOkB e = true := by
  intro e he
  unfold afterChat at he
  split at he <;>
    simp only [List.mem_append, List.mem_singleton] at he
  · rcases he with ((((he | he) | he) | he) | he)
    · exact hevs e he
    · subst he; rfl
    · rcases metaSave_evs_shape he with ⟨v, rfl⟩; rfl
    · subst he; rfl
    · rcases processImages_shape he with ⟨s, b, rfl⟩ | rfl <;> rfl
  · rcases he with he | he
    · exact hevs e he
    · subst he; rfl

/-- The post-client tail only adds store-confined events to evs. -/
theorem afterClient_dbOk {env : QEnv} {p : String} {dls : List String}
    {evs : List Event} {db1 : Db}
    (hevs : ∀ e ∈ evs, dbWriteOkB e = true) :
    ∀ e ∈ (afterClient env p dls evs db1).evs, dbWriteOkB e = true := by
  intro e he
  unfold afterClient at he
  have hchat : ∀ x ∈ (evs ++ [Event.dbGet "custom.gemini" "chat_metadata"
      (db1 "custom.gemini" "chat_metadata")]
      ++ (chatPhase env (db1 "custom.gemini" "chat_metadata") db1).1), dbWriteOkB x = true := by
    intro x hx
    simp only [List.mem_append, List.mem_singleton] at hx
    rcases hx with (hx | hx) | hx
    · exact hevs x hx
    · subst hx; rfl
    · rcases chat_evs_shape hx with ⟨md, mdl, b, rfl⟩ | rfl
      · rfl
      · decide
  split at he
  · rename_i cEvs db2 e2 heq
    simp only [List.mem_append, List.mem_singleton] at he
    rcases he with (he | he) | he
    · exact hevs e he
    · subst he; rfl
    · have := hchat e (by rw [heq]; simp [List.mem_append]; tauto)
      exact this
  · rename_i cEvs db2 heq
    refine afterChat_dbOk ?_ e he
    intro x hx
    exact hchat x (by rw [heq]; exact hx)

/-- Chat-protocol replies are not store writes. -/
theorem editOrReply_dbOk (b : Bool) (t : String) : dbWriteOkB (editOrReply b t) = true := by
  cases b <;> rfl

/-- Every event of the except-clauses is an edit of the wait message. -/
theorem catchEvents_shape {o : Option Exn} {e : Event} (h : e ∈ catchEvents o) :
    ∃ t, e = Event.editWait t := by
  rcases o with _ | ex <;> simp [catchEvents] at h
  exact ⟨_, h⟩

/-- Every event of the finally-block is a _safe_remove call. -/
theorem rmEvents_shape {t : TryOut} {rm : String → Bool} {e : Event}
    (h : e ∈ rmEvents t rm) : ∃ p b, e = Event.safeRemove p b := by
  unfold rmEvents at h
  simp only [List.mem_append, List.mem_map] at h
  rcases h with ⟨p, _, rfl⟩ | ⟨p, _, rfl⟩ <;> exact ⟨_, _, rfl⟩

/-- Every event of the try-block is store-confined. -/
theorem tryBody_dbOk (env : QEnv) (p : String) :
    ∀ e ∈ (tryBody env p).evs, dbWriteOkB e = true := by
  intro e he
  unfold tryBody at he
  split at he
  · rename_i dEvs e2 heq
    simp only [] at he
    have hd : e ∈ (downloadRepliedMedia env.replied env.downloadOk).1 := by
      rw [heq]; exact he
    rcases dm_evs_shape hd with ⟨d, b, rfl⟩; rfl
  · rename_i dEvs dls heq
    have hdm : ∀ x ∈ dEvs, dbWriteOkB x = true := by
      intro x hx
      have : x ∈ (downloadRepliedMedia env.replied env.downloadOk).1 := by
        rw [heq]; exact hx
      rcases dm_evs_shape this with ⟨d, b, rfl⟩; rfl
    split at he
    · rename_i gEvs db1 e2 heq2
      simp only [] at he
      simp only [List.mem_append] at he
      rcases he with he | he
      · exact hdm e he
      · have hg : e ∈ (getClient ⟨env.db0, env.initOk, env.cookiesGet⟩).1 := by
          rw [heq2]; exact he
        rcases gc_evs_shape hg with ⟨res, rfl⟩ | ⟨b, rfl⟩ | ⟨v, rfl⟩ <;> rfl
    · rename_i gEvs db1 cl heq2
      refine afterClient_dbOk ?_ e he
      intro x hx
      simp only [List.mem_append] at hx
      rcases hx with hx | hx
      · exact hdm x hx
      · have hg : x ∈ (getClient ⟨env.db0, env.initOk, env.cookiesGet⟩).1 := by
          rw [heq2]; exact hx
        rcases gc_evs_shape hg with ⟨res, rfl⟩ | ⟨b, rfl⟩ | ⟨v, rfl⟩ <;> rfl

/-- C6: every write or delete the module performs on the settings store —
in gemini_query (get_client included) and in set_gemini — is under the
single namespace custom.gemini and touches only the keys cookie and
chat_metadata; no other persistent state is ever created. -/
theorem db_writes_confined (env : QEnv) (genv : GCEnv) (senv : SetEnv) :
    ((geminiQuery env).1.all dbWriteOkB = true) ∧
    ((getClient genv).1.all dbWriteOkB = true) ∧
    ((setGemini senv).1.all dbWriteOkB = true) := by
  refine ⟨?_, ?_, ?_⟩
  · rw [List.all_eq_true]
    intro e he
    unfold geminiQuery at he
    split at he
    · simp only [List.mem_singleton] at he
      subst he; exact editOrReply_dbOk _ _
    · split at he
      · simp only [List.mem_singleton] at he
        subst he; exact editOrReply_dbOk _ _
      · simp only [List.mem_cons, List.mem_append] at he
        rcases he with ((rfl | he) | he) | he
        · exact editOrReply_dbOk _ _
        · exact tryBody_dbOk env (promptOf env) e he
        · rcases catchEvents_shape he with ⟨t, rfl⟩; rfl
        · rcases rmEvents_shape he with ⟨p, b, rfl⟩; rfl
  · rw [List.all_eq_true]
    intro e he
    rcases gc_evs_shape he with ⟨res, rfl⟩ | ⟨b, rfl⟩ | ⟨v, rfl⟩ <;> rfl
  · rw [List.all_eq_true]
    intro e he
    unfold setGemini at he
    split at he
    · simp only [List.mem_singleton] at he
      subst he; exact editOrReply_dbOk _ _
    · split at he
      · simp only [List.mem_singleton] at he
        subst he; exact editOrReply_dbOk _ _
      · simp only [List.mem_cons, List.not_mem_nil, or_false] at he
        rcases he with rfl | rfl
        · rfl
        · exact editOrReply_dbOk _ _

/-- C2 (amended): every exception the gemini-query try-block raises is
caught — but by two handlers, not one: a ValueError is shown with its own
message prefixed by the cross mark, and only every other exception is
shown the one generic failure message; in both cases the user sees the
message determined by catchMsg. -/
theorem gemini_query_catch_all (env : QEnv) (e : Exn)
    (h2 : 2 ≤ env.command.length) (hp : promptOf env ≠ "")
    (hex : (tryBody env (promptOf env)).exn = some e) :
    Event.editWait (catchMsg e) ∈ (geminiQuery env).1 := by
  unfold geminiQuery
  rw [if_neg (by omega), if_neg hp]
  have hc : Event.editWait (catchMsg e) ∈ catchEvents (tryBody env (promptOf env)).exn := by
    rw [hex]; simp [catchEvents]
  exact List.mem_cons_of_mem _ (List.mem_append_left _ (List.mem_append_right _ hc))

/-- Witness for C2: with no cookie configured the try-block raises a
ValueError and the handler shows its catchMsg. -/
theorem gemini_query_catch_all_witness :
    Event.editWait (catchMsg (Exn.valueError noCookieMsg)) ∈ (geminiQuery envNoCookie).1 :=
  gemini_query_catch_all envNoCookie (Exn.valueError noCookieMsg)
    (by decide) (by decide) (by decide)

/-- C2 is false as stated: with no cookie configured the raised ValueError
is shown with its own specific message, and the generic failure message is
never shown, so the user message does depend on which exception occurred. -/
theorem valueerror_message_not_generic :
    (tryBody envNoCookie (promptOf envNoCookie)).exn = some (Exn.valueError noCookieMsg) ∧
    Event.editWait ("❌ " ++ noCookieMsg) ∈ (geminiQuery envNoCookie).1 ∧
    Event.editWait genericErrMsg ∉ (geminiQuery envNoCookie).1 := by decide

/-- C4 (amended): whether the try-block succeeds or raises, the handler
ends with one _safe_remove call per tracked downloaded file and one per
tracked generated image, each with its own outcome, so one failed removal
never prevents the others.  The tracked generated images are only those
whose send_photo succeeded. -/
theorem gemini_query_cleanup_runs (env : QEnv)
    (h2 : 2 ≤ env.command.length) (hp : promptOf env ≠ "") :
    ∃ pre, (geminiQuery env).1 =
      pre ++ ((tryBody env (promptOf env)).dls.map (fun p => Event.safeRemove p (env.rmOk p))
        ++ (tryBody env (promptOf env)).gens.map (fun p => Event.safeRemove p (env.rmOk p))) := by
  refine ⟨editOrReply env.isSelf thinkingMsg :: (tryBody env (promptOf env)).evs
      ++ catchEvents (tryBody env (promptOf env)).exn, ?_⟩
  unfold geminiQuery
  rw [if_neg (by omega), if_neg hp]
  simp [rmEvents, List.append_assoc]

/-- Witness for C4 at the run whose generated image is saved but not sent. -/
theorem gemini_query_cleanup_runs_witness :
    ∃ pre, (geminiQuery envLeak).1 =
      pre ++ ((tryBody envLeak (promptOf envLeak)).dls.map
          (fun p => Event.safeRemove p (envLeak.rmOk p))
        ++ (tryBody envLeak (promptOf envLeak)).gens.map
          (fun p => Event.safeRemove p (envLeak.rmOk p))) :=
  gemini_query_cleanup_runs envLeak (by decide) (by decide)

/-- C4 is false as stated: a generated image that was saved to disk but
whose send_photo raised is never tracked in generated_image_paths, so no
_safe_remove call is made for it before the handler returns. -/
theorem saved_image_send_failure_not_removed :
    saveGeneratedImage ⟨ImgKind.generated, some "http://img", true, true, false⟩ 0
        = some (genPath 0) ∧
    Event.sendPhoto (genPath 0) false ∈ (geminiQuery envLeak).1 ∧
    List.countP (isRemoveOf (genPath 0)) (geminiQuery envLeak).1 = 0 := by decide

/-- C1 is false as stated: in a fully successful run with a replied-to
document, the media download happens strictly before the first
settings-store read (the cookie read of get_client), while the claim says
settings are read and the client constructed before the download. -/
theorem download_precedes_settings_read :
    List.findIdx isDownloadEv (geminiQuery envOrder).1 <
      List.findIdx isDbReadEv (geminiQuery envOrder).1 ∧
    List.findIdx isDbReadEv (geminiQuery envOrder).1 < (geminiQuery envOrder).1.length := by
  decide

/-- C1 (amended): the gemini query handler performs its steps in this
order: it downloads the replied-to media item first, then reads settings
and constructs the remote-service client, then reads the stored chat
metadata, starts the chat, sends the request, relays the response, and
cleans up temp files — witnessed by the exact event trace of a successful
run. -/
theorem gemini_query_success_trace (env : QEnv) (r : RepliedMsg) (attr : String)
    (m : MediaObj) (c psid psidts : String)
    (h2 : 2 ≤ env.command.length) (hp : promptOf env ≠ "")
    (hr : env.replied = some r) (hfm : firstMedia r = some (attr, m))
    (hdl : env.downloadOk = true)
    (hck : env.db0 "custom.gemini" "cookie" = some c) (hc : c ≠ "")
    (hparse : pySplit (pyStrip c) '|' = [psid, psidts])
    (hps : psid ≠ "") (hts : psidts ≠ "")
    (hinit : env.initOk = true) (hcg : env.cookiesGet = Except.ok none)
    (hmeta : env.db0 "custom.gemini" "chat_metadata" = none)
    (hfresh : env.startChatFreshOk = true) (hsend : env.sendOk = true)
    (hcm : env.chatMetaAfter = none) (himg : env.images = []) :
    (geminiQuery env).1 =
      [editOrReply env.isSelf thinkingMsg,
       Event.download (destFor attr m) true,
       Event.dbGet "custom.gemini" "cookie" (some c),
       Event.clientInit true,
       Event.dbGet "custom.gemini" "chat_metadata" none,
       Event.startChat none DEFAULT_MODEL true,
       Event.sendMessage (promptOf env) (some [destFor attr m]) true,
       Event.editWait (questionAnswer (promptOf env) env.responseText),
       Event.safeRemove (destFor attr m) (env.rmOk (destFor attr m))] := by
  have hdm : downloadRepliedMedia env.replied env.downloadOk =
      ([Event.download (destFor attr m) true], Except.ok [destFor attr m]) := by
    rw [hr, hdl]
    simp [downloadRepliedMedia, hfm]
  have hgc : getClient ⟨env.db0, env.initOk, env.cookiesGet⟩ =
      ([Event.dbGet "custom.gemini" "cookie" (some c), Event.clientInit true],
       env.db0, Except.ok ⟨psid, psidts⟩) := by
    unfold getClient
    dsimp only
    rw [hck]
    simp only [Option.getD_some]
    rw [hparse]
    simp [pyTruthy, hc, hps, hts, hinit, hcg]
  unfold geminiQuery
  rw [if_neg (by omega), if_neg hp]
  unfold tryBody
  rw [hdm, hgc]
  simp only []
  unfold afterClient
  rw [hmeta]
  unfold chatPhase
  simp only [pyTruthy, hfresh, if_true, if_false, Bool.false_eq_true]
  unfold afterChat
  rw [hsend]
  simp only [if_true]
  rw [hcm, himg]
  simp [metaSave, processImages, catchEvents, rmEvents, pyTruthy]

/-- Witness for C1 at the concrete successful run with a replied document. -/
theorem gemini_query_success_trace_witness :
    (geminiQuery envOrder).1 =
      [editOrReply envOrder.isSelf thinkingMsg,
       Event.download (destFor "document" ⟨some "a.pdf", "UID"⟩) true,
       Event.dbGet "custom.gemini" "cookie" (some "A|B"),
       Event.clientInit true,
       Event.dbGet "custom.gemini" "chat_metadata" none,
       Event.startChat none DEFAULT_MODEL true,
       Event.sendMessage (promptOf envOrder) (some [destFor "document" ⟨some "a.pdf", "UID"⟩]) true,
       Event.editWait (questionAnswer (promptOf envOrder) envOrder.responseText),
       Event.safeRemove (destFor "document" ⟨some "a.pdf", "UID"⟩)
         (envOrder.rmOk (destFor "document" ⟨some "a.pdf", "UID"⟩))] :=
  gemini_query_success_trace envOrder docReplied "document" ⟨some "a.pdf", "UID"⟩ "A|B" "A" "B"
    (by decide) (by decide) (by decide) (by decide) (by decide) (by decide) (by decide)
    (by decide) (by decide) (by decide) (by decide) (by decide) (by decide) (by decide)
    (by decide) (by decide) (by decide)

/-- The download stage never calls start_chat with stored metadata. -/
theorem dm_stale_zero (r : Option RepliedMsg) (ok : Bool) :
    List.countP isStaleChatStart (downloadRepliedMedia r ok).1 = 0 := by
  rw [List.countP_eq_zero]
  intro e he
  rcases dm_evs_shape he with ⟨d, b, rfl⟩
  simp [isStaleChatStart]

/-- get_client never calls start_chat with stored metadata. -/
theorem gc_stale_zero (genv : GCEnv) :
    List.countP isStaleChatStart (getClient genv).1 = 0 := by
  rw [List.countP_eq_zero]
  intro e he
  rcases gc_evs_shape he with ⟨res, rfl⟩ | ⟨b, rfl⟩ | ⟨v, rfl⟩ <;> simp [isStaleChatStart]

/-- The image loop never calls start_chat with stored metadata. -/
theorem images_stale_zero (imgs : List ImgSpec) (i : Nat) :
    List.countP isStaleChatStart (processImages imgs i).1 = 0 := by
  rw [List.countP_eq_zero]
  intro e he
  rcases processImages_shape he with ⟨s, b, rfl⟩ | rfl <;> simp [isStaleChatStart]

/-- The metadata save never calls start_chat with stored metadata. -/
theorem metaSave_stale_zero (cm : Option String) (db : Db) :
    List.countP isStaleChatStart (metaSave cm db).1 = 0 := by
  rw [List.countP_eq_zero]
  intro e he
  rcases metaSave_evs_shape he with ⟨v, rfl⟩
  simp [isStaleChatStart]

/-- The finally-block never calls start_chat with stored metadata. -/
theorem rm_stale_zero (t : TryOut) (rm : String → Bool) :
    List.countP isStaleChatStart (rmEvents t rm) = 0 := by
  rw [List.countP_eq_zero]
  intro e he
  rcases rmEvents_shape he with ⟨p, b, rfl⟩
  simp [isStaleChatStart]

/-- Chat-protocol replies are not start_chat calls. -/
theorem editOrReply_stale (b : Bool) (t : String) :
    isStaleChatStart (editOrReply b t) = false := by
  cases b <;> rfl

/-- C5: if starting a chat from the stored conversation metadata raises,
the handler starts a fresh chat with the default model, deletes the stored
chat_metadata entry, and still completes the request (the answer is
relayed); the stale handle is passed to start_chat exactly once and never
retried. -/
theorem stale_metadata_recovery (env : QEnv) (dls : List String) (cl : Client) (m : String)
    (h2 : 2 ≤ env.command.length) (hp : promptOf env ≠ "")
    (hdl : (downloadRepliedMedia env.replied env.downloadOk).2 = Except.ok dls)
    (hgc : (getClient ⟨env.db0, env.initOk, env.cookiesGet⟩).2.2 = Except.ok cl)
    (hmeta : (getClient ⟨env.db0, env.initOk, env.cookiesGet⟩).2.1
        "custom.gemini" "chat_metadata" = some m)
    (hm : m ≠ "")
    (hstale : env.startChatMetaOk = false)
    (hfresh : env.startChatFreshOk = true)
    (hsend : env.sendOk = true) :
    Event.dbDelete "custom.gemini" "chat_metadata" ∈ (geminiQuery env).1 ∧
    Event.startChat none DEFAULT_MODEL true ∈ (geminiQuery env).1 ∧
    Event.editWait (questionAnswer (promptOf env) env.responseText) ∈ (geminiQuery env).1 ∧
    List.countP isStaleChatStart (geminiQuery env).1 = 1 := by
  have hmt : pyTruthy (some m) = true := by simp [pyTruthy, hm]
  have eD : downloadRepliedMedia env.replied env.downloadOk =
      ((downloadRepliedMedia env.replied env.downloadOk).1, Except.ok dls) := by
    rw [← hdl]
  have eG : getClient ⟨env.db0, env.initOk, env.cookiesGet⟩ =
      ((getClient ⟨env.db0, env.initOk, env.cookiesGet⟩).1,
       (getClient ⟨env.db0, env.initOk, env.cookiesGet⟩).2.1, Except.ok cl) := by
    rw [← hgc]
  unfold geminiQuery
  rw [if_neg (by omega), if_neg hp]
  unfold tryBody
  rw [eD]
  simp only []
  rw [eG]
  simp only []
  unfold afterClient
  rw [hmeta]
  unfold chatPhase
  simp only [hmt, hstale, hfresh, if_true, Bool.false_eq_true, if_false]
  unfold afterChat
  simp only [hsend, if_true]
  simp only [catchEvents, List.append_nil]
  refine ⟨?_, ?_, ?_, ?_⟩
  · simp
  · simp
  · simp
  · simp only [List.countP_cons, List.countP_append, dm_stale_zero, gc_stale_zero,
      images_stale_zero, metaSave_stale_zero, rm_stale_zero, editOrReply_stale]
    simp [isStaleChatStart]

/-- Witness for C5 at the concrete run with stale stored metadata. -/
theorem stale_metadata_recovery_witness :
    Event.dbDelete "custom.gemini" "chat_metadata" ∈ (geminiQuery envStale).1 ∧
    Event.startChat none DEFAULT_MODEL true ∈ (geminiQuery envStale).1 ∧
    Event.editWait (questionAnswer (promptOf envStale) envStale.responseText)
        ∈ (geminiQuery envStale).1 ∧
    List.countP isStaleChatStart (geminiQuery envStale).1 = 1 :=
  stale_metadata_recovery envStale [] ⟨"A", "B"⟩ "OLDMETA"
    (by decide) (by decide) (by decide) (by decide) (by decide) (by decide)
    (by decide) (by decide) (by decide)

/-- C9: whenever get_client rewrites the stored cookie after client
initialization (because the service refreshed __Secure-1PSIDTS), the new
stored value is exactly the original __Secure-1PSID joined by a bar with
the refreshed __Secure-1PSIDTS: the PSID half of the credential pair is
never changed by get_client. -/
theorem get_client_cookie_rewrite_preserves_psid (genv : GCEnv) (v : String)
    (h : Event.dbSet "custom.gemini" "cookie" v ∈ (getClient genv).1) :
    ∃ c psid psidts np,
      genv.db0 "custom.gemini" "cookie" = some c ∧
      pySplit (pyStrip c) '|' = [psid, psidts] ∧
      genv.cookiesGet = Except.ok (some np) ∧ np ≠ "" ∧ np ≠ psidts ∧
      v = psid ++ "|" ++ np :=
  gc_dbSet_shape h

/-- Witness for C9 at the environment whose service rotated the PSIDTS
from B to C: the stored value becomes exactly A bar C. -/
theorem get_client_cookie_rewrite_preserves_psid_witness :
    ∃ c psid psidts np,
      gcRotate.db0 "custom.gemini" "cookie" = some c ∧
      pySplit (pyStrip c) '|' = [psid, psidts] ∧
      gcRotate.cookiesGet = Except.ok (some np) ∧ np ≠ "" ∧ np ≠ psidts ∧
      "A|C" = psid ++ "|" ++ np :=
  get_client_cookie_rewrite_preserves_psid gcRotate "A|C" (by decide)

/-- C7 (amended): for every image of a successful response, a
GeneratedImage that saves is sent as a photo from its temp file; when
saving fails it falls back to its url provided a non-empty url is present
(otherwise nothing is relayed for it); a WebImage with a non-empty url is
sent by url; whenever a send_photo raises, the per-image handler sends the
warning message instead; and the loop processes every image, one after the
other, regardless of individual outcomes. -/
theorem image_relay_behavior (i : Nat) (img : ImgSpec) :
    (img.kind = ImgKind.generated → img.saveOk = true → img.savedExists = true →
      img.sendOk = true →
      processImage i img = ([Event.sendPhoto (genPath i) true], some (genPath i))) ∧
    (img.kind = ImgKind.generated → saveGeneratedImage img i = none →
      ∀ u, img.url = some u → u ≠ "" → img.sendOk = true →
      processImage i img = ([Event.sendPhoto u true], none)) ∧
    (img.kind = ImgKind.web → ∀ u, img.url = some u → u ≠ "" → img.sendOk = true →
      processImage i img = ([Event.sendPhoto u true], none)) ∧
    (∀ s, Event.sendPhoto s false ∈ (processImage i img).1 →
      Event.warnImage ∈ (processImage i img).1) ∧
    (∀ rest, processImages (img :: rest) i =
      ((processImage i img).1 ++ (processImages rest (i + 1)).1,
       (processImage i img).2.toList ++ (processImages rest (i + 1)).2)) := by
  obtain ⟨k, u, so, se, sk⟩ := img
  refine ⟨?_, ?_, ?_, ?_, fun rest => rfl⟩
  · intro hk hso hse hsk
    subst hk; subst hso; subst hse; subst hsk
    simp [processImage, saveGeneratedImage]
  · intro hk hsave u2 hu hne hsk
    subst hk; subst hu; subst hsk
    simp [processImage, hsave, sendByUrl, hne]
  · intro hk u2 hu hne hsk
    subst hk; subst hu; subst hsk
    simp [processImage, sendByUrl, hne]
  · intro s hs
    unfold processImage sendByUrl at hs ⊢
    repeat' split at hs
    all_goals simp_all

/-- Witness for C7 at a generated image that saves and sends fine. -/
theorem image_relay_behavior_witness :
    processImage 0 ⟨ImgKind.generated, none, true, true, true⟩ =
      ([Event.sendPhoto (genPath 0) true], some (genPath 0)) :=
  (image_relay_behavior 0 ⟨ImgKind.generated, none, true, true, true⟩).1 rfl rfl rfl rfl

/-- C7 is false as stated: a GeneratedImage whose save raises and whose url
is absent is relayed in no way at all — in the run envNoUrl the response
carries one image, yet no photo send and no warning appears in the whole
trace. -/
theorem generated_image_without_url_not_relayed :
    processImage 0 ⟨ImgKind.generated, none, false, false, true⟩ = ([], none) ∧
    envNoUrl.images.length = 1 ∧
    List.countP isRelayEv (geminiQuery envNoUrl).1 = 0 := by decide
